import Mathlib

/-!
Shallow embedding of `src/util/thread.cc` (Kudu thread registry and
thread-start handshake), together with theorems checking the
natural-language specification against it.

Modelling conventions:
* `boost::thread::id` (the per-thread identity token) is modelled as `Nat`.
* `std::map` is modelled as an association list with unique keys
  (`mapInsert` replaces in place or appends); no settled claim depends on
  `std::map`'s sorted iteration order.
* `uint64` counters are `Nat` with explicit reduction modulo `2 ^ 64`
  wherever the source increments or decrements them.
* A `DCHECK` failure (or the undefined behaviour in release builds where
  the `DCHECK` compiles away and an `end()` iterator is dereferenced) is
  modelled by returning `none`: the operation has no defined result state.
* The web page output is modelled structurally: the data rows a handler
  emits, whether the "not found" message was emitted, how many calls were
  made to the OS statistics collaborator `GetThreadStats`, and how many
  throttled log statements (`LOG_EVERY_N`) were executed.  The collaborator
  itself is external (`util/os-util`), so it is a parameter
  `statsFn : Int → Option ThreadStats` (`none` models a non-OK `Status`).
-/

set_option autoImplicit false

namespace kudu

/-- Identity token: `boost::thread::id`, modelled as `Nat`. -/
abbrev ThreadId := Nat

/-- `ThreadMgr::ThreadDescriptor` (thread.cc lines 78-93). -/
structure ThreadDescriptor where
  name_ : String
  category_ : String
  thread_id_ : Int
deriving Repr, DecidableEq

/-- Lookup in an association-list map (models `std::map::find`). -/
def mapLookup {α β : Type} [DecidableEq α] : List (α × β) → α → Option β
  | [], _ => none
  | (k', v) :: rest, k => if k' = k then some v else mapLookup rest k

/-- Insert-or-assign in an association-list map (models `std::map::operator[]`
followed by assignment). -/
def mapInsert {α β : Type} [DecidableEq α] : List (α × β) → α → β → List (α × β)
  | [], k, v => [(k, v)]
  | (k', v') :: rest, k, v =>
    if k' = k then (k, v) :: rest else (k', v') :: mapInsert rest k v

/-- Erase a key from an association-list map (models `std::map::erase`;
keys are unique by construction, so erasing the first occurrence suffices). -/
def mapErase {α β : Type} [DecidableEq α] : List (α × β) → α → List (α × β)
  | [], _ => []
  | (k', v') :: rest, k => if k' = k then rest else (k', v') :: mapErase rest k

/-- `ThreadMgr::ThreadCategory` = `map<const thread::id, ThreadDescriptor>`. -/
abbrev ThreadCategory := List (ThreadId × ThreadDescriptor)

/-- `ThreadMgr::ThreadCategoryMap` = `map<string, ThreadCategory>`. -/
abbrev ThreadCategoryMap := List (String × ThreadCategory)

/-- Modulus of the `uint64` metric counters. -/
def U64MOD : Nat := 2 ^ 64

/-- The mutable state of the `ThreadMgr` singleton (thread.cc lines 104-115).
The mutex `lock_` serialises the operations; the model is the sequential
functional semantics of the critical sections. -/
structure ThreadMgrState where
  thread_categories_ : ThreadCategoryMap
  metrics_enabled_ : Bool
  total_threads_metric_ : Nat
  current_num_threads_metric_ : Nat
deriving Repr, DecidableEq

/-- `ThreadMgr::ThreadMgr()` (line 60) initialises only
`metrics_enabled_(false)`.  The two `uint64` counter members are left
uninitialised by the source, so the model takes their indeterminate initial
contents as parameters (reduced mod `2 ^ 64` as any `uint64` bit pattern is). -/
def ThreadMgr.mkState (total0 current0 : Nat) : ThreadMgrState :=
  { thread_categories_ := []
    metrics_enabled_ := false
    total_threads_metric_ := total0 % U64MOD
    current_num_threads_metric_ := current0 % U64MOD }

/-- `ThreadMgr::StartInstrumentation` (lines 126-144): under the lock, sets
`metrics_enabled_ = true`.  The gauge and path-handler registrations go to the
external metrics/webserver collaborators and carry no registry state. -/
def ThreadMgrState.StartInstrumentation (s : ThreadMgrState) : ThreadMgrState :=
  { s with metrics_enabled_ := true }

/-- `ThreadMgr::ReadNumTotalThreads` (lines 146-149). -/
def ThreadMgrState.ReadNumTotalThreads (s : ThreadMgrState) : Nat :=
  s.total_threads_metric_

/-- `ThreadMgr::ReadNumCurrentThreads` (lines 151-154). -/
def ThreadMgrState.ReadNumCurrentThreads (s : ThreadMgrState) : Nat :=
  s.current_num_threads_metric_

/-- `ThreadMgr::AddThread` (lines 156-164):
`thread_categories_[category][thread] = ThreadDescriptor(category, name, tid);`
(`operator[]` default-constructs an empty category when absent), then both
counters are incremented iff `metrics_enabled_`. -/
def ThreadMgrState.AddThread (s : ThreadMgrState) (thread : ThreadId) (name category : String)
    (tid : Int) : ThreadMgrState :=
  let cat := (mapLookup s.thread_categories_ category).getD []
  let cat' := mapInsert cat thread (ThreadDescriptor.mk name category tid)
  { s with
    thread_categories_ := mapInsert s.thread_categories_ category cat'
    total_threads_metric_ :=
      if s.metrics_enabled_ then (s.total_threads_metric_ + 1) % U64MOD
      else s.total_threads_metric_
    current_num_threads_metric_ :=
      if s.metrics_enabled_ then (s.current_num_threads_metric_ + 1) % U64MOD
      else s.current_num_threads_metric_ }

/-- `ThreadMgr::RemoveThread` (lines 166-174): looks the category up,
`DCHECK`s that it exists (modelled: `none` when absent — assertion failure in
debug builds, `end()`-iterator dereference otherwise), erases `boost_id` from
it whether or not it is present, and decrements `current_num_threads_metric_`
unconditionally whenever `metrics_enabled_`. -/
def ThreadMgrState.RemoveThread (s : ThreadMgrState) (boost_id : ThreadId)
    (category : String) : Option ThreadMgrState :=
  match mapLookup s.thread_categories_ category with
  | none => none
  | some cat =>
    some { s with
      thread_categories_ := mapInsert s.thread_categories_ category (mapErase cat boost_id)
      current_num_threads_metric_ :=
        if s.metrics_enabled_ then (s.current_num_threads_metric_ + (U64MOD - 1)) % U64MOD
        else s.current_num_threads_metric_ }

/-- Number of identity tokens currently present across all category maps. -/
def ThreadMgrState.numAlive (s : ThreadMgrState) : Nat :=
  (s.thread_categories_.map (fun c => c.2.length)).sum

/-- A registry mutation: one `AddThread` or `RemoveThread` call. -/
inductive RegOp where
  | add (id : ThreadId) (name category : String) (tid : Int)
  | remove (id : ThreadId) (category : String)
deriving Repr, DecidableEq

/-- Apply one registry operation; `none` when `RemoveThread` hits its
absent-category assertion. -/
def applyOp (s : ThreadMgrState) : RegOp → Option ThreadMgrState
  | RegOp.add i n c t => some (s.AddThread i n c t)
  | RegOp.remove i c => s.RemoveThread i c

/-- Run a sequence of registry operations. -/
def runOps (s : ThreadMgrState) : List RegOp → Option ThreadMgrState
  | [] => some s
  | op :: ops => (applyOp s op).bind (fun s' => runOps s' ops)

/-- Modelled from the spec: `ThreadStats` comes from `util/os-util.h`, which is
not under src/; the spec says per-thread user/kernel/IO-wait times are reported
in nanoseconds and that on a statistics failure the row is "zero-filled", so
the default-constructed stats used for a failed lookup are zeros. -/
structure ThreadStats where
  user_ns : Int
  kernel_ns : Int
  iowait_ns : Int
deriving Repr, DecidableEq

/-- The default-constructed `ThreadStats` that a failed `GetThreadStats` call
leaves behind in `PrintThreadCategoryRows`. -/
def ThreadStats.default : ThreadStats := ⟨0, 0, 0⟩

/-- One `<tr>` data row emitted by `PrintThreadCategoryRows` (lines 185-188):
the thread's name and the three time cells.  The source divides each
nanosecond counter by `1e9` for display; the model keeps the nanosecond
values that determine those cells. -/
structure Row where
  name : String
  user_ns : Int
  kernel_ns : Int
  iowait_ns : Int
deriving Repr, DecidableEq

/-- Observable effect of printing rows: the data rows emitted, the number of
calls made to the external `GetThreadStats` collaborator, and the number of
throttled `LOG_EVERY_N` statements executed. -/
structure RowsResult where
  rows : List Row
  statsCalls : Nat
  throttledLogs : Nat
deriving Repr, DecidableEq

/-- `ThreadMgr::PrintThreadCategoryRows` (lines 176-190): for each thread of
the category, in order, call `GetThreadStats` on its OS id; on failure log
(throttled) and fall through; either way emit the row from the (possibly
still default-constructed) stats.  The function returns no error. -/
def PrintThreadCategoryRows (statsFn : Int → Option ThreadStats) :
    ThreadCategory → RowsResult
  | [] => ⟨[], 0, 0⟩
  | (_, d) :: rest =>
    let r := PrintThreadCategoryRows statsFn rest
    match statsFn d.thread_id_ with
    | some st =>
      ⟨⟨d.name_, st.user_ns, st.kernel_ns, st.iowait_ns⟩ :: r.rows,
        r.statsCalls + 1, r.throttledLogs⟩
    | none =>
      ⟨⟨d.name_, ThreadStats.default.user_ns, ThreadStats.default.kernel_ns,
          ThreadStats.default.iowait_ns⟩ :: r.rows,
        r.statsCalls + 1, r.throttledLogs + 1⟩

/-- Rows of a list of categories, in order (the `categories_to_print` loop,
lines 221-223). -/
def printCategories (statsFn : Int → Option ThreadStats) :
    List ThreadCategory → RowsResult
  | [] => ⟨[], 0, 0⟩
  | c :: rest =>
    let r1 := PrintThreadCategoryRows statsFn c
    let r2 := printCategories statsFn rest
    ⟨r1.rows ++ r2.rows, r1.statsCalls + r2.statsCalls,
      r1.throttledLogs + r2.throttledLogs⟩

/-- Modelled from the spec: `EscapeForHtmlToString` lives in
`util/url-coding`, which is not under src/; the spec only says user-supplied
values are "HTML-escaped when echoing ... back into the page", so this is the
standard HTML escaping of the five special characters (codepoints 60 `<`,
62 `>`, 38 `&`, 34 double quote, 39 single quote). -/
def escapeHtmlChar (c : Char) : String :=
  if c.toNat = 60 then "&lt;"
  else if c.toNat = 62 then "&gt;"
  else if c.toNat = 38 then "&amp;"
  else if c.toNat = 34 then "&quot;"
  else if c.toNat = 39 then "&#39;"
  else String.singleton c

/-- HTML-escape a string, character by character. -/
def EscapeForHtmlToString (s : String) : String :=
  String.join (s.toList.map escapeHtmlChar)

/-- Observable effect of one `ThreadPathHandler` call: the registry state on
return (the handler holds the lock and only reads), whether the
"Thread group ... not found" message was emitted, the data rows emitted, the
number of `GetThreadStats` calls and of throttled log statements. -/
structure PageResult where
  state : ThreadMgrState
  notFound : Bool
  rows : List Row
  statsCalls : Nat
  throttledLogs : Nat
deriving Repr, DecidableEq

/-- `ThreadMgr::ThreadPathHandler` (lines 192-239).  `groupArg` is
`args.find("group")`.  When present, the source HTML-escapes the argument and
looks that *escaped* string up: `group = EscapeForHtmlToString(...)`, then
`thread_categories_.find(group)`.  If `group != "all"` and the escaped name is
not a key, it prints the not-found message and returns; otherwise it prints
one row per thread of the selected category (or of every category for
`"all"`).  With no `group` argument it prints the category listing and no
data rows. -/
def ThreadMgrState.ThreadPathHandler (s : ThreadMgrState)
    (statsFn : Int → Option ThreadStats) (groupArg : Option String) : PageResult :=
  match groupArg with
  | some raw =>
    let group := EscapeForHtmlToString raw
    if group ≠ "all" then
      match mapLookup s.thread_categories_ group with
      | none => ⟨s, true, [], 0, 0⟩
      | some cat =>
        let r := PrintThreadCategoryRows statsFn cat
        ⟨s, false, r.rows, r.statsCalls, r.throttledLogs⟩
    else
      let r := printCategories statsFn (s.thread_categories_.map Prod.snd)
      ⟨s, false, r.rows, r.statsCalls, r.throttledLogs⟩
  | none => ⟨s, false, [], 0, 0⟩

/-- Modelled from the spec: `UNINITIALISED_THREAD_ID` is defined in
`util/thread.h`, which is not under src/; the spec describes it as the
sentinel "unset" value initially held by the child-reported-id slot. -/
def UNINITIALISED_THREAD_ID : Int := -1

/-- The launcher's side of the handshake after thread creation
(`Thread::StartThread`, lines 289-293): spin while the `c_p_tid` slot still
holds the sentinel, then load it into `tid_`.  The child's single
`Release_Store` of `system_tid` is the only write to the slot, so the spin
terminates iff the published value differs from the sentinel, and `tid_`
then holds exactly that published value (`none` models the spin never
completing). -/
def startThreadSpin (published : Int) : Option Int :=
  if published = UNINITIALISED_THREAD_ID then none else some published

/-- What `Thread::SuperviseThread` (lines 298-331) computes and publishes:
the registry state after its `AddThread` call, the value it `Release_Store`s
into the `c_p_tid` slot, and the name/category/identity it registered under. -/
structure SuperviseOutcome where
  mgr : ThreadMgrState
  published_tid : Int
  registered_identity : ThreadId
  registered_name : String
  registered_category : String
deriving Repr, DecidableEq

/-- `Thread::SuperviseThread` (lines 298-331), sequential functional content:
resolve `system_tid` (a parameter here: `syscall(SYS_gettid)` is the OS),
build `name_copy` = (name, or `"thread"` if empty) ++ `"-"` ++ `system_tid`,
default an empty category to `"no-category"`, register with the registry
under the boost thread id (`selfId`), and publish `system_tid` via
`Release_Store(c_p_tid, system_tid)`. -/
def SuperviseThread (s : ThreadMgrState) (selfId : ThreadId)
    (name category : String) (system_tid : Int) : SuperviseOutcome :=
  let name_copy := (if name = "" then "thread" else name) ++ "-" ++ toString system_tid
  let category_copy := if category = "" then "no-category" else category
  { mgr := s.AddThread selfId name_copy category_copy system_tid
    published_tid := system_tid
    registered_identity := selfId
    registered_name := name_copy
    registered_category := category_copy }

/-! ### Association-list map lemmas -/

theorem mapLookup_mapInsert_self {α β : Type} [DecidableEq α]
    (m : List (α × β)) (k : α) (v : β) :
    mapLookup (mapInsert m k v) k = some v := by
  induction m with
  | nil => simp [mapInsert, mapLookup]
  | cons hd tl ih =>
    obtain ⟨k', v'⟩ := hd
    by_cases h : k' = k
    · simp [mapInsert, h, mapLookup]
    · simp [mapInsert, h, mapLookup, ih]

theorem mapLookup_mapInsert_ne {α β : Type} [DecidableEq α]
    (m : List (α × β)) (k k' : α) (v : β) (h : k' ≠ k) :
    mapLookup (mapInsert m k v) k' = mapLookup m k' := by
  have h2 : k ≠ k' := Ne.symm h
  induction m with
  | nil => simp [mapInsert, mapLookup, h2]
  | cons hd tl ih =>
    obtain ⟨k0, v0⟩ := hd
    by_cases h0 : k0 = k
    · subst h0
      simp [mapInsert, mapLookup, h2]
    · simp [mapInsert, h0, mapLookup, ih]

/-! ### Row-printing lemmas -/

theorem PrintThreadCategoryRows_rows_length (statsFn : Int → Option ThreadStats)
    (cat : ThreadCategory) :
    (PrintThreadCategoryRows statsFn cat).rows.length = cat.length := by
  induction cat with
  | nil => rfl
  | cons hd tl ih =>
    obtain ⟨i, d⟩ := hd
    cases h : statsFn d.thread_id_ <;> simp [PrintThreadCategoryRows, h, ih]

theorem PrintThreadCategoryRows_names (statsFn : Int → Option ThreadStats)
    (cat : ThreadCategory) :
    (PrintThreadCategoryRows statsFn cat).rows.map Row.name =
      cat.map (fun p => p.2.name_) := by
  induction cat with
  | nil => rfl
  | cons hd tl ih =>
    obtain ⟨i, d⟩ := hd
    cases h : statsFn d.thread_id_ <;> simp [PrintThreadCategoryRows, h, ih]

theorem PrintThreadCategoryRows_logs (statsFn : Int → Option ThreadStats)
    (cat : ThreadCategory) :
    (PrintThreadCategoryRows statsFn cat).throttledLogs =
      cat.countP (fun q => (statsFn q.2.thread_id_).isNone) := by
  induction cat with
  | nil => rfl
  | cons hd tl ih =>
    obtain ⟨i, d⟩ := hd
    cases h : statsFn d.thread_id_ <;>
      simp [PrintThreadCategoryRows, h, ih, List.countP_cons]

theorem PrintThreadCategoryRows_mem_fail (statsFn : Int → Option ThreadStats)
    (cat : ThreadCategory) (p : ThreadId × ThreadDescriptor)
    (hp : p ∈ cat) (hfail : statsFn p.2.thread_id_ = none) :
    (⟨p.2.name_, 0, 0, 0⟩ : Row) ∈ (PrintThreadCategoryRows statsFn cat).rows := by
  induction cat with
  | nil => cases hp
  | cons hd tl ih =>
    obtain ⟨i, d⟩ := hd
    rcases List.mem_cons.mp hp with heq | hmem
    · subst heq
      simp [PrintThreadCategoryRows, hfail, ThreadStats.default]
    · have hrec := ih hmem
      cases h : statsFn d.thread_id_ <;>
        simp only [PrintThreadCategoryRows, h, List.mem_cons] <;>
        exact Or.inr hrec

/-! ### Operation-sequence lemmas -/

theorem applyOp_frame_metrics_off (s s' : ThreadMgrState) (op : RegOp)
    (hm : s.metrics_enabled_ = false) (h : applyOp s op = some s') :
    s'.metrics_enabled_ = false ∧
    s'.total_threads_metric_ = s.total_threads_metric_ ∧
    s'.current_num_threads_metric_ = s.current_num_threads_metric_ := by
  cases op with
  | add i n c t =>
    simp only [applyOp, Option.some.injEq] at h
    subst h
    simp [ThreadMgrState.AddThread, hm]
  | remove i c =>
    simp only [applyOp, ThreadMgrState.RemoveThread] at h
    cases hl : mapLookup s.thread_categories_ c with
    | none => rw [hl] at h; cases h
    | some cat =>
      rw [hl] at h
      simp only [Option.some.injEq] at h
      subst h
      simp [hm]

theorem runOps_frame_metrics_off (ops : List RegOp) (s s' : ThreadMgrState)
    (hm : s.metrics_enabled_ = false) (h : runOps s ops = some s') :
    s'.metrics_enabled_ = false ∧
    s'.total_threads_metric_ = s.total_threads_metric_ ∧
    s'.current_num_threads_metric_ = s.current_num_threads_metric_ := by
  induction ops generalizing s with
  | nil =>
    simp only [runOps, Option.some.injEq] at h
    subst h
    exact ⟨hm, rfl, rfl⟩
  | cons op ops ih =>
    simp only [runOps, Option.bind_eq_some] at h
    obtain ⟨s1, h1, h2⟩ := h
    obtain ⟨m1, t1, c1⟩ := applyOp_frame_metrics_off s s1 op hm h1
    obtain ⟨m2, t2, c2⟩ := ih s1 m1 h2
    exact ⟨m2, t2.trans t1, c2.trans c1⟩

theorem applyOp_preserves_catKey (s s' : ThreadMgrState) (op : RegOp) (c : String)
    (hc : (mapLookup s.thread_categories_ c).isSome = true)
    (h : applyOp s op = some s') :
    (mapLookup s'.thread_categories_ c).isSome = true := by
  cases op with
  | add i n c' t =>
    simp only [applyOp, Option.some.injEq] at h
    subst h
    by_cases hcc : c' = c
    · subst hcc
      simp [ThreadMgrState.AddThread, mapLookup_mapInsert_self]
    · simpa [ThreadMgrState.AddThread,
        mapLookup_mapInsert_ne _ _ _ _ (fun hh => hcc hh.symm)] using hc
  | remove i c' =>
    simp only [applyOp, ThreadMgrState.RemoveThread] at h
    cases hl : mapLookup s.thread_categories_ c' with
    | none => rw [hl] at h; cases h
    | some cat =>
      rw [hl] at h
      simp only [Option.some.injEq] at h
      subst h
      by_cases hcc : c' = c
      · subst hcc
        simp [mapLookup_mapInsert_self]
      · simpa [mapLookup_mapInsert_ne _ _ _ _ (fun hh => hcc hh.symm)] using hc

theorem runOps_preserves_catKey (ops : List RegOp) (s s' : ThreadMgrState) (c : String)
    (hc : (mapLookup s.thread_categories_ c).isSome = true)
    (h : runOps s ops = some s') :
    (mapLookup s'.thread_categories_ c).isSome = true := by
  induction ops generalizing s with
  | nil =>
    simp only [runOps, Option.some.injEq] at h
    subst h
    exact hc
  | cons op ops ih =>
    simp only [runOps, Option.bind_eq_some] at h
    obtain ⟨s1, h1, h2⟩ := h
    exact ih s1 (applyOp_preserves_catKey s s1 op c hc h1) h2

/-! ### Claim theorems -/

/-- C1: the claim says `RemoveThread` on an absent identity or category is a
defined no-op that leaves every category map and both counters unchanged.
The source instead `DCHECK`s that the category exists (no defined result when
it is absent — first conjunct), and with metrics enabled it decrements
`current_num_threads_metric_` even when the identity is not present in the
category (second conjunct: the counter drops from 1 to 0 although nothing was
removed), contradicting the function's own header comment
(thread.cc lines 70-72: "If the thread has already been removed, this is a
no-op"). -/
theorem removeThread_absent_not_noop :
    ((ThreadMgr.mkState 0 0).StartInstrumentation).RemoveThread 1 "c" = none ∧
    ((((ThreadMgr.mkState 0 0).StartInstrumentation).AddThread 1 "w" "c"
        7).current_num_threads_metric_ = 1 ∧
      ((((ThreadMgr.mkState 0 0).StartInstrumentation).AddThread 1 "w" "c"
          7).RemoveThread 2 "c").map ThreadMgrState.current_num_threads_metric_ =
        some 0) := by
  exact ⟨rfl, rfl, rfl⟩

/-- C2: the claim says that with instrumentation enabled,
`current_num_threads_metric_` always equals the number of identities present
across the category maps.  Evaluating the code on the sequence add(1,"c"),
remove(1,"c"), remove(1,"c") (the second removal hits an already-removed
identity) leaves the counter at `2 ^ 64 - 1` — the unconditional decrement in
`RemoveThread` wrapped the `uint64` below zero — while zero identities are
present.  (The evaluation grants the claim zero-initialised counters; the
constructor additionally leaves both counters uninitialised.) -/
theorem counters_desync_on_double_remove :
    (runOps ((ThreadMgr.mkState 0 0).StartInstrumentation)
        [RegOp.add 1 "w" "c" 7, RegOp.remove 1 "c", RegOp.remove 1 "c"]).map
      (fun s => (s.current_num_threads_metric_, s.numAlive)) =
      some (18446744073709551615, 0) := by
  rfl

/-- C3: when the supervisor wrapper runs to completion (it publishes a
non-sentinel id, which is exactly when the launcher's spin can finish), the
launcher's spin resolves `tid_` to the very value the child published via its
`Release_Store` into the `c_p_tid` slot, that value is not the sentinel
`UNINITIALISED_THREAD_ID`, and it is also the `thread_id_` recorded in the
registry descriptor filed under the child's logical identity. -/
theorem startThread_resolves_child_tid (s : ThreadMgrState) (selfId : ThreadId)
    (name category : String) (system_tid : Int)
    (h : system_tid ≠ UNINITIALISED_THREAD_ID) :
    startThreadSpin (SuperviseThread s selfId name category system_tid).published_tid =
      some system_tid ∧
    system_tid ≠ UNINITIALISED_THREAD_ID ∧
    ((mapLookup (SuperviseThread s selfId name category system_tid).mgr.thread_categories_
        (SuperviseThread s selfId name category system_tid).registered_category).bind
      (fun cat => mapLookup cat selfId)).map ThreadDescriptor.thread_id_ =
      some system_tid := by
  refine ⟨?_, h, ?_⟩
  · simp [startThreadSpin, SuperviseThread, h]
  · simp [SuperviseThread, ThreadMgrState.AddThread, mapLookup_mapInsert_self]

/-- Witness for C3 at a concrete input: registry fresh, identity 1, name "n",
category "c", resolved OS id 42. -/
theorem startThread_resolves_child_tid_witness :
    startThreadSpin (SuperviseThread (ThreadMgr.mkState 0 0) 1 "n" "c"
        42).published_tid = some 42 ∧
    (42 : Int) ≠ UNINITIALISED_THREAD_ID ∧
    ((mapLookup (SuperviseThread (ThreadMgr.mkState 0 0) 1 "n" "c"
          42).mgr.thread_categories_
        (SuperviseThread (ThreadMgr.mkState 0 0) 1 "n" "c" 42).registered_category).bind
      (fun cat => mapLookup cat 1)).map ThreadDescriptor.thread_id_ = some 42 :=
  startThread_resolves_child_tid (ThreadMgr.mkState 0 0) 1 "n" "c" 42 (by decide)

/-- C4 counterexample: the handler looks up the HTML-*escaped* group name
(`thread_categories_.find(EscapeForHtmlToString(raw))`).  With category
`"&amp;"` registered and the raw request `"&"` — a name other than "all" that
is *not* a key of the category map — the handler finds `"&amp;"`, emits no
not-found message and makes one `GetThreadStats` call, instead of the claimed
not-found message with zero calls. -/
theorem threadPathHandler_escaped_lookup_cex :
    mapLookup ((ThreadMgr.mkState 0 0).AddThread 1 "w" "&amp;"
        7).thread_categories_ "&" = none ∧
    "&" ≠ "all" ∧
    (((ThreadMgr.mkState 0 0).AddThread 1 "w" "&amp;" 7).ThreadPathHandler
        (fun _ => some ⟨1, 2, 3⟩) (some "&")).notFound = false ∧
    (((ThreadMgr.mkState 0 0).AddThread 1 "w" "&amp;" 7).ThreadPathHandler
        (fun _ => some ⟨1, 2, 3⟩) (some "&")).statsCalls = 1 :=
  ⟨rfl, by decide, rfl, rfl⟩

/-- C4 (amended): for every requested group name whose HTML-escaped form is
neither `"all"` nor a key of the category map, the handler emits the
not-found message, emits no rows, performs zero `GetThreadStats` calls and
leaves the registry state unchanged. -/
theorem threadPathHandler_unknown_category_not_found (s : ThreadMgrState)
    (statsFn : Int → Option ThreadStats) (raw : String)
    (hall : EscapeForHtmlToString raw ≠ "all")
    (habs : mapLookup s.thread_categories_ (EscapeForHtmlToString raw) = none) :
    s.ThreadPathHandler statsFn (some raw) = ⟨s, true, [], 0, 0⟩ := by
  simp [ThreadMgrState.ThreadPathHandler, hall, habs]

/-- Witness for C4's amended theorem at a concrete input: empty registry,
requested group "x". -/
theorem threadPathHandler_unknown_category_not_found_witness :
    (ThreadMgr.mkState 0 0).ThreadPathHandler (fun _ => some ⟨1, 2, 3⟩)
        (some "x") = ⟨ThreadMgr.mkState 0 0, true, [], 0, 0⟩ :=
  threadPathHandler_unknown_category_not_found (ThreadMgr.mkState 0 0) _ "x"
    (by decide) (by decide)

/-- C6: a failing `GetThreadStats` call does not suppress the thread's row:
one row per thread of the category is emitted regardless, the failing
thread's row carries the default-constructed (zero) values in the three time
cells, and every failure in the category executes the throttled
`LOG_EVERY_N` statement; `PrintThreadCategoryRows` returns only its output
(no error reaches the page handler's caller). -/
theorem printRows_stats_failure_row_emitted (statsFn : Int → Option ThreadStats)
    (cat : ThreadCategory) (p : ThreadId × ThreadDescriptor)
    (hp : p ∈ cat) (hfail : statsFn p.2.thread_id_ = none) :
    (PrintThreadCategoryRows statsFn cat).rows.length = cat.length ∧
    (⟨p.2.name_, 0, 0, 0⟩ : Row) ∈ (PrintThreadCategoryRows statsFn cat).rows ∧
    (PrintThreadCategoryRows statsFn cat).throttledLogs =
      cat.countP (fun q => (statsFn q.2.thread_id_).isNone) :=
  ⟨PrintThreadCategoryRows_rows_length statsFn cat,
   PrintThreadCategoryRows_mem_fail statsFn cat p hp hfail,
   PrintThreadCategoryRows_logs statsFn cat⟩

/-- Witness for C6 at a concrete input: a one-thread category whose stats
lookup fails. -/
theorem printRows_stats_failure_row_emitted_witness :
    (PrintThreadCategoryRows (fun _ => none)
        [(1, ⟨"w-7", "c", 7⟩)]).rows.length = 1 ∧
    (⟨"w-7", 0, 0, 0⟩ : Row) ∈
      (PrintThreadCategoryRows (fun _ => none) [(1, ⟨"w-7", "c", 7⟩)]).rows ∧
    (PrintThreadCategoryRows (fun _ => none)
        [(1, ⟨"w-7", "c", 7⟩)]).throttledLogs = 1 :=
  printRows_stats_failure_row_emitted (fun _ => none) [(1, ⟨"w-7", "c", 7⟩)]
    (1, ⟨"w-7", "c", 7⟩) (by decide) rfl

/-- C7: with exactly thread "A" registered in category "io" and thread "B" in
category "compute", the `group=all` view traverses every category and emits
exactly two data rows, one per registered thread. -/
theorem threadPathHandler_all_two_rows (s : ThreadMgrState)
    (statsFn : Int → Option ThreadStats) (iA iB : ThreadId)
    (dA dB : ThreadDescriptor)
    (hcats : s.thread_categories_ = [("io", [(iA, dA)]), ("compute", [(iB, dB)])]) :
    (s.ThreadPathHandler statsFn (some "all")).rows.length = 2 ∧
    (s.ThreadPathHandler statsFn (some "all")).rows.map Row.name =
      [dA.name_, dB.name_] := by
  have hesc : EscapeForHtmlToString "all" = "all" := by decide
  constructor <;>
    simp [ThreadMgrState.ThreadPathHandler, hesc, hcats, printCategories,
      PrintThreadCategoryRows_rows_length, PrintThreadCategoryRows_names]

/-- Witness for C7 at a concrete input: registry built by the two
`AddThread` calls of the claim. -/
theorem threadPathHandler_all_two_rows_witness :
    ((((ThreadMgr.mkState 0 0).AddThread 5 "A" "io" 50).AddThread 6 "B"
          "compute" 60).ThreadPathHandler (fun _ => none)
        (some "all")).rows.length = 2 ∧
    ((((ThreadMgr.mkState 0 0).AddThread 5 "A" "io" 50).AddThread 6 "B"
          "compute" 60).ThreadPathHandler (fun _ => none)
        (some "all")).rows.map Row.name = ["A", "B"] :=
  threadPathHandler_all_two_rows _ _ 5 6 ⟨"A", "io", 50⟩ ⟨"B", "compute", 60⟩
    (by decide)

/-- C8: before `StartInstrumentation` has run (`metrics_enabled_` false), no
defined sequence of `AddThread`/`RemoveThread` calls changes either counter,
and the flag stays false — the calls modify only the category maps. -/
theorem counters_untouched_before_instrumentation (ops : List RegOp)
    (s s' : ThreadMgrState) (hm : s.metrics_enabled_ = false)
    (hrun : runOps s ops = some s') :
    s'.metrics_enabled_ = false ∧
    s'.total_threads_metric_ = s.total_threads_metric_ ∧
    s'.current_num_threads_metric_ = s.current_num_threads_metric_ :=
  runOps_frame_metrics_off ops s s' hm hrun

/-- Witness for C8 at a concrete input: one `AddThread` call on a
fresh, uninstrumented registry whose (uninitialised) counters hold 3 and 4. -/
theorem counters_untouched_before_instrumentation_witness :
    ((ThreadMgr.mkState 3 4).AddThread 1 "w" "c" 7).metrics_enabled_ = false ∧
    ((ThreadMgr.mkState 3 4).AddThread 1 "w" "c" 7).total_threads_metric_ =
      (ThreadMgr.mkState 3 4).total_threads_metric_ ∧
    ((ThreadMgr.mkState 3 4).AddThread 1 "w" "c" 7).current_num_threads_metric_ =
      (ThreadMgr.mkState 3 4).current_num_threads_metric_ :=
  counters_untouched_before_instrumentation [RegOp.add 1 "w" "c" 7] _ _ rfl rfl

/-- C9: once an `AddThread` call has created a category, every later defined
sequence of `AddThread`/`RemoveThread` calls leaves that category a key of
the category map: `RemoveThread` erases only the identity entry, never the
(possibly now empty) category itself. -/
theorem category_key_persists (s : ThreadMgrState) (i : ThreadId) (n c : String)
    (t : Int) (ops : List RegOp) (s' : ThreadMgrState)
    (hrun : runOps (s.AddThread i n c t) ops = some s') :
    (mapLookup s'.thread_categories_ c).isSome = true := by
  have h0 : (mapLookup (s.AddThread i n c t).thread_categories_ c).isSome = true := by
    simp [ThreadMgrState.AddThread, mapLookup_mapInsert_self]
  exact runOps_preserves_catKey ops _ s' c h0 hrun

/-- Witness for C9 at a concrete input: add identity 1 to category "c", then
remove it again; "c" is still a key (with an empty inner map). -/
theorem category_key_persists_witness :
    (mapLookup ([("c", [])] : ThreadCategoryMap) "c").isSome = true :=
  category_key_persists (ThreadMgr.mkState 0 0) 1 "w" "c" 7 [RegOp.remove 1 "c"]
    ⟨[("c", [])], false, 0, 0⟩ (by decide)

/-- C10: the name registered with the registry is always the supplied name
(or the literal "thread" when it is empty) followed by "-" and the resolved
OS thread id — the suffix is appended even for a non-empty name — and an
empty supplied category is registered as the literal "no-category"; the
descriptor recorded under the thread's logical identity carries exactly
these values together with the OS id. -/
theorem superviseThread_name_category_registration (s : ThreadMgrState)
    (selfId : ThreadId) (name category : String) (system_tid : Int) :
    (SuperviseThread s selfId name category system_tid).registered_name =
      (if name = "" then "thread" else name) ++ "-" ++ toString system_tid ∧
    (SuperviseThread s selfId name category system_tid).registered_category =
      (if category = "" then "no-category" else category) ∧
    (mapLookup (SuperviseThread s selfId name category system_tid).mgr.thread_categories_
        (SuperviseThread s selfId name category system_tid).registered_category).bind
      (fun cat => mapLookup cat selfId) =
      some ⟨(SuperviseThread s selfId name category system_tid).registered_name,
            (SuperviseThread s selfId name category system_tid).registered_category,
            system_tid⟩ := by
  refine ⟨rfl, rfl, ?_⟩
  simp [SuperviseThread, ThreadMgrState.AddThread, mapLookup_mapInsert_self]

end kudu
